import Mathlib

/-!
A shallow embedding of the autonomous scraping-plan pipeline of the
`RVOAgentAIAutonomous` class (`agent-ai-autonomous.js`), together with
theorems settling the frozen claims about it.

External effects (HTTP fetches, the reasoning oracle, the JavaScript
`JSON.parse` builtin, and the binary document extractor libraries) are
modelled as fields of an `Env` record; the page markup handed to the two
link harvesters is modelled as the document-ordered list of anchor
elements (`a[href]` with their visible text) that `cheerio` would
deliver.  Everything else is translated directly from the source.
-/

namespace RVOAgent

/-! ### String helpers (JavaScript string primitives over `List Char`) -/

/-- Does `cs` start with `p`?  (JavaScript `String.prototype.startsWith`.) -/
def listStartsWith : List Char → List Char → Bool
  | _, [] => true
  | [], _ :: _ => false
  | c :: cs, d :: ds => c == d && listStartsWith cs ds

/-- Does `hay` contain `needle` as a contiguous run?
(JavaScript `String.prototype.includes`.) -/
def listContains : List Char → List Char → Bool
  | [], needle => needle.isEmpty
  | c :: cs, needle => listStartsWith (c :: cs) needle || listContains cs needle

/-- JavaScript `s.startsWith(p)`. -/
def strStartsWith (s p : String) : Bool :=
  listStartsWith s.data p.data

/-- JavaScript `s.includes(sub)`. -/
def strIncludes (s sub : String) : Bool :=
  listContains s.data sub.data

/-- ASCII lower-casing of one character (what `toLowerCase` does on the
ASCII URLs this pipeline deals in). -/
def lowerChar (c : Char) : Char :=
  if 'A' ≤ c && c ≤ 'Z' then Char.ofNat (c.toNat + 32) else c

/-- JavaScript `s.toLowerCase()` (ASCII fragment). -/
def strToLower (s : String) : String :=
  String.mk (s.data.map lowerChar)

/-- Whitespace for `trim`. -/
def isWs (c : Char) : Bool :=
  c == ' ' || c == '\n' || c == '\t' || c == '\r'

/-- Trim whitespace from both ends of a character list. -/
def trimList (cs : List Char) : List Char :=
  ((cs.dropWhile isWs).reverse.dropWhile isWs).reverse

/-- JavaScript `s.trim()`. -/
def strTrim (s : String) : String :=
  String.mk (trimList s.data)

/-- JavaScript `s.substring(0, n)`. -/
def takeChars (n : Nat) (s : String) : String :=
  String.mk (s.data.take n)

/-- Split a character list at every occurrence of `sep`
(JavaScript `s.split(sep)` for a one-character separator). -/
def splitChar (sep : Char) : List Char → List (List Char)
  | [] => [[]]
  | c :: cs =>
    let rest := splitChar sep cs
    if c == sep then [] :: rest
    else
      match rest with
      | [] => [[c]]
      | h :: t => (c :: h) :: t

/-- Split `hay` at the first occurrence of `needle`, returning the parts
before and after it; `none` when `needle` does not occur. -/
def splitFirstSeq (needle : List Char) : List Char → Option (List Char × List Char)
  | [] => if needle.isEmpty then some ([], []) else none
  | c :: cs =>
    if listStartsWith (c :: cs) needle then some ([], (c :: cs).drop needle.length)
    else
      match splitFirstSeq needle cs with
      | some (b, a) => some (c :: b, a)
      | none => none

/-- JavaScript `o || d` for an optional `Nat` field: an absent field and
the falsy value `0` both yield the default (used for `plan.max_pages || 8`
and `plan.max_documents || 5`). -/
def natOr (o : Option Nat) (d : Nat) : Nat :=
  match o with
  | some n => if n == 0 then d else n
  | none => d

/-! ### JSON values (the result of the JavaScript `JSON.parse` builtin) -/

/-- A parsed JSON value. -/
inductive Json where
  | null : Json
  | bool (b : Bool) : Json
  | num (n : Int) : Json
  | str (s : String) : Json
  | arr (elems : List Json) : Json
  | obj (fields : List (String × Json)) : Json

/-- JavaScript truthiness of a JSON value (`[]` and objects are truthy;
`null`, `false`, `0` and the empty string are falsy). -/
def Json.truthy : Json → Bool
  | .null => false
  | .bool b => b
  | .num n => n != 0
  | .str s => s != ""
  | .arr _ => true
  | .obj _ => true

/-- Is this the JSON `null` value?  (Property access on `null` throws a
`TypeError` in JavaScript.) -/
def Json.isNull : Json → Bool
  | .null => true
  | _ => false

/-- Property access `j.name` on a parsed JSON value: an object yields the
value of the field (the last occurrence wins, as duplicate keys do under
`JSON.parse`); any other non-null receiver yields `undefined` (here
`none`).  Access on `null` throws in JavaScript and is handled separately
at the call site. -/
def Json.getField : Json → String → Option Json
  | .obj fields, name => (fields.reverse.find? (fun p => p.fst == name)).map (fun p => p.snd)
  | _, _ => none

/-- JavaScript `x || d` where `x` is a possibly-absent object property:
absent (`undefined`) or falsy values give the default. -/
def jsOr (o : Option Json) (d : Json) : Json :=
  match o with
  | some v => if v.truthy then v else d
  | none => d

/-! ### Data model -/

/-- One `a[href]` element of a page's markup: its `href` attribute and its
visible text (before the `.trim()` the harvesters apply). -/
structure Anchor where
  href : String
  text : String
deriving DecidableEq

/-- What `scrapePage` returns: `{ url, title, html, textContent }`, the
`html` standing for the markup via its ordered list of anchor elements. -/
structure PageData where
  url : String
  title : String
  anchors : List Anchor
  textContent : String
deriving DecidableEq

/-- An entry of the harvested page-link list
(`{ url, text, href }` in `extractActualLinks`). -/
structure LinkRecord where
  url : String
  text : String
  href : String
deriving DecidableEq

/-- An entry of the harvested document-link list
(`{ url, text, href, type }` in `extractDocumentLinks`). -/
structure DocLinkRecord where
  url : String
  text : String
  href : String
  type : String
deriving DecidableEq

/-- The `main_page` part of a scraping plan. -/
structure MainPage where
  url : String
  title : String
  priority : String
deriving DecidableEq

/-- A `sub_pages` or `documents` entry of a scraping plan
(`{ url, reason, priority }`). -/
structure PlanTarget where
  url : String
  reason : String
  priority : String
deriving DecidableEq

/-- A scraping plan.  JavaScript object fields that some producers omit
(`createFallbackScrapingPlan` builds a plan with no `documents` and no
`max_documents` field) are `Option`s, `none` meaning the field is absent
(`undefined`). -/
structure ScrapingPlan where
  main_page : MainPage
  sub_pages : List PlanTarget
  documents : Option (List PlanTarget)
  max_pages : Option Nat
  max_documents : Option Nat
  focus_keywords : Option (List String)
deriving DecidableEq

/-- A page record pushed onto `allPages` by the executor:
`{ ...pageData, priority, reason }`. -/
structure PageRecord where
  url : String
  title : String
  anchors : List Anchor
  textContent : String
  priority : String
  reason : String
deriving DecidableEq

/-- A document record pushed onto `allDocuments` by the executor. -/
structure DocumentRecord where
  url : String
  title : String
  textContent : String
  priority : String
  reason : String
  type : String
deriving DecidableEq

/-- `{ ...pageData, priority, reason }`. -/
def mkPageRecord (pd : PageData) (priority reason : String) : PageRecord :=
  { url := pd.url, title := pd.title, anchors := pd.anchors,
    textContent := pd.textContent, priority := priority, reason := reason }

/-- The value returned by `aiExecuteScrapingPlan`. -/
structure ExecResult where
  mainPage : Option PageRecord
  allPages : List PageRecord
  allDocuments : List DocumentRecord
deriving DecidableEq

/-- The requirement set returned by `aiAnalyzeAllData`.  The fields keep
JSON type, since the code passes through whatever truthy value the parsed
oracle response held. -/
structure RequirementSet where
  attestations : Json
  non_attestations : Json
  analysis_notes : Json

/-- The value returned by `analyzeSubsidy`: either the success shape
`{ url, title, requirements, analyzed_at, pages_analyzed, ai_scraping_plan }`
or the error shape `{ url, error, analyzed_at }` (the wall-clock
`analyzed_at` timestamp is outside the embedding). -/
inductive AnalysisResult where
  | success (url title : String) (requirements : RequirementSet)
      (pages_analyzed : Nat) (ai_scraping_plan : ScrapingPlan)
  | failure (url error : String)

/-- Is the result the `{ url, error, analyzed_at }` error shape? -/
def AnalysisResult.isFailure : AnalysisResult → Bool
  | .success _ _ _ _ _ => false
  | .failure _ _ => true

/-- The requirement set of a success result. -/
def AnalysisResult.requirementsOf : AnalysisResult → Option RequirementSet
  | .success _ _ reqs _ _ => some reqs
  | .failure _ _ => none

/-- One HTTP request issued by the Crawl Executor: the `HEAD` existence
probe of `checkUrlExists`, the full page `GET` of `scrapePage`, or the
document `GET` inside `extractDocumentText`. -/
inductive FetchEvent where
  | head (url : String)
  | page (url : String)
  | doc (url : String)
deriving DecidableEq

/-- The external world: HTTP fetches, the two reasoning-oracle calls, the
binary document extractor libraries, and the JavaScript `JSON.parse`
builtin.  An `Except.error` oracle models the call throwing (service
unreachable or misconfigured); `fetchDoc u = none` models a network error
or a non-2xx status (the code converts both into the caught-and-empty
path); the extractor fields are total because the code catches their
errors internally and returns the empty string. -/
structure Env where
  scrapePage : String → Except String PageData
  checkUrlExists : String → Bool
  fetchDoc : String → Option String
  extractPdfText : String → String
  extractDocxText : String → String
  extractXlsxText : String → String
  planOracle : Except String String
  classifyOracle : Except String String
  parseJson : String → Option Json
  parsePlan : String → Option ScrapingPlan

/-- `this.baseUrl` of the agent. -/
def baseUrl : String := "https://www.rvo.nl"

/-! ### Link Harvester (`extractActualLinks`, `extractDocumentLinks`) -/

/-- URL resolution of `extractActualLinks`: a `/`-leading href is joined
to `this.baseUrl`, an `http`-leading href is kept, a `#`-leading href is
skipped (`return` inside the `each` callback), anything else is kept
unchanged (the initial `fullUrl = href` assignment). -/
def resolvePageHref (href : String) : Option String :=
  if strStartsWith href "/" then some (baseUrl ++ href)
  else if strStartsWith href "http" then some href
  else if strStartsWith href "#" then none
  else some href

/-- URL resolution of `extractDocumentLinks`: same as the page variant
but with no `#` skip. -/
def resolveDocHref (href : String) : String :=
  if strStartsWith href "/" then baseUrl ++ href
  else if strStartsWith href "http" then href
  else href

/-- The duplicate-removal pass of `extractActualLinks`
(`filter` keeping each url's first occurrence). -/
def dedupByUrl (seen : List String) : List LinkRecord → List LinkRecord
  | [] => []
  | l :: ls =>
    if seen.contains l.url then dedupByUrl seen ls
    else l :: dedupByUrl (l.url :: seen) ls

/-- `extractActualLinks(html, baseUrl)`.  The `baseUrl` parameter of the
source is unused (the method reads `this.baseUrl`), so it is not a
parameter here; `visited` is the instance's `this.visitedUrls`. -/
def extractActualLinks (visited : List String) (anchors : List Anchor) : List LinkRecord :=
  let links := anchors.filterMap (fun a =>
    let text := strTrim a.text
    if a.href != "" && text != "" then
      match resolvePageHref a.href with
      | none => none
      | some fullUrl =>
        if strIncludes fullUrl "rvo.nl" && !(visited.contains fullUrl) then
          some { url := fullUrl, text := takeChars 100 text, href := a.href }
        else none
    else none)
  dedupByUrl [] links

/-- The fixed extension list of `extractDocumentLinks`. -/
def documentExtensions : List String :=
  [".pdf", ".doc", ".docx", ".xls", ".xlsx", ".ppt", ".pptx"]

/-- The document test of `extractDocumentLinks`: case-insensitive
substring match of any fixed extension against the full URL. -/
def isDocumentUrl (fullUrl : String) : Bool :=
  documentExtensions.any (fun ext => strIncludes (strToLower fullUrl) ext)

/-- `getDocumentType(url)`. -/
def getDocumentType (url : String) : String :=
  let urlLower := strToLower url
  if strIncludes urlLower ".pdf" then "pdf"
  else if strIncludes urlLower ".docx" || strIncludes urlLower ".doc" then "docx"
  else if strIncludes urlLower ".xlsx" || strIncludes urlLower ".xls" then "xlsx"
  else if strIncludes urlLower ".pptx" || strIncludes urlLower ".ppt" then "pptx"
  else "unknown"

/-- `extractDocumentLinks(html, baseUrl)`: keeps every anchor (empty text
allowed) whose resolved URL matches a document extension and is not
visited; no duplicate removal. -/
def extractDocumentLinks (visited : List String) (anchors : List Anchor) : List DocLinkRecord :=
  anchors.filterMap (fun a =>
    if a.href != "" then
      let fullUrl := resolveDocHref a.href
      if isDocumentUrl fullUrl && !(visited.contains fullUrl) then
        some { url := fullUrl, text := takeChars 100 (strTrim a.text), href := a.href,
               type := getDocumentType fullUrl }
      else none
    else none)

/-! ### Plan Validator and fallback plan -/

/-- `validateScrapingPlan(plan, actualLinks)`: filter `sub_pages` to
entries whose url is among the harvested link urls; spread everything
else through unchanged. -/
def validateScrapingPlan (plan : ScrapingPlan) (actualLinks : List LinkRecord) : ScrapingPlan :=
  let actualUrls := actualLinks.map (fun link => link.url)
  { plan with sub_pages := plan.sub_pages.filter (fun subPage => actualUrls.contains subPage.url) }

/-- `createFallbackScrapingPlan(mainUrl, mainPageData)`.  The object
literal in the source has no `documents` field and no `max_documents`
field, hence the two `none`s. -/
def createFallbackScrapingPlan (mainUrl : String) (mainPageData : PageData) : ScrapingPlan :=
  { main_page := { url := mainUrl, title := mainPageData.title, priority := "high" },
    sub_pages := [],
    documents := none,
    max_pages := some 1,
    max_documents := none,
    focus_keywords := some [] }

/-! ### Plan Synthesizer (`aiCreateScrapingPlan`) -/

/-- `aiCreateScrapingPlan(mainUrl)`.  The prompt construction is elided:
the oracle's answer is `env.planOracle`.  `env.parsePlan` stands for
`JSON.parse` at this call site, `none` covering both a parse failure and
a parsed value on which the subsequent field accesses throw — the inner
`catch (parseError)` turns either into the fallback plan.  The outer
`catch` re-runs `scrapePage(mainUrl)`; with a deterministic environment
that second fetch behaves as the first, so an unreachable main page
surfaces as an error and an oracle error becomes the fallback plan. -/
def aiCreateScrapingPlan (env : Env) (visited : List String) (mainUrl : String) :
    Except String ScrapingPlan :=
  match env.scrapePage mainUrl with
  | .error e => .error e
  | .ok mainPageData =>
    let actualLinks := extractActualLinks visited mainPageData.anchors
    match env.planOracle with
    | .error _ => .ok (createFallbackScrapingPlan mainUrl mainPageData)
    | .ok response =>
      match env.parsePlan response with
      | none => .ok (createFallbackScrapingPlan mainUrl mainPageData)
      | some plan => .ok (validateScrapingPlan plan actualLinks)

/-! ### Document text extraction (`extractDocumentText` and the format
extractors) -/

/-- `extractDocumentText(url, documentType)`: fetch the bytes (a failed
fetch or non-ok status throws and the surrounding `catch` returns the
empty string), then dispatch on the already-computed type.  The `switch`
has `pdf`, `docx` and `xlsx` cases and a `default` returning the empty
string — there is no `pptx` case.  Each per-format extractor catches its
own errors and returns the empty string, which the `Env` fields model by
being total. -/
def extractDocumentText (env : Env) (url documentType : String) : String :=
  match env.fetchDoc url with
  | none => ""
  | some buffer =>
    if documentType == "pdf" then env.extractPdfText buffer
    else if documentType == "docx" then env.extractDocxText buffer
    else if documentType == "xlsx" then env.extractXlsxText buffer
    else ""

/-- `document.url.split('/').pop() || 'Document'`. -/
def docTitle (url : String) : String :=
  let last := (splitChar '/' url.data).getLastD []
  if last.isEmpty then "Document" else String.mk last

/-! ### Crawl Executor (`aiExecuteScrapingPlan`) -/

/-- The sub-page `for` loop of `aiExecuteScrapingPlan`, threading the
`this.visitedUrls` set and recording every HTTP request issued (the HEAD
probe of `checkUrlExists` and the page GET of `scrapePage`, the latter
also when it fails).  A url already visited is skipped; a failed probe
skips the target; a successful scrape pushes the page record and adds the
url to the visited set; a throwing scrape is caught and adds nothing. -/
def subPagesLoop (env : Env) : List PlanTarget → List String →
    List PageRecord × List String × List FetchEvent
  | [], visited => ([], visited, [])
  | subPage :: rest, visited =>
    if visited.contains subPage.url then subPagesLoop env rest visited
    else if env.checkUrlExists subPage.url then
      match env.scrapePage subPage.url with
      | .ok pageData =>
        let r := subPagesLoop env rest (subPage.url :: visited)
        (mkPageRecord pageData subPage.priority subPage.reason :: r.1,
         r.2.1, FetchEvent.head subPage.url :: FetchEvent.page subPage.url :: r.2.2)
      | .error _ =>
        let r := subPagesLoop env rest visited
        (r.1, r.2.1, FetchEvent.head subPage.url :: FetchEvent.page subPage.url :: r.2.2)
    else
      let r := subPagesLoop env rest visited
      (r.1, r.2.1, FetchEvent.head subPage.url :: r.2.2)

/-- The document `for` loop of `aiExecuteScrapingPlan`.  A url already
visited is skipped; otherwise `extractDocumentText` issues one document
GET (recorded whether or not it succeeds); only a truthy (nonempty)
extracted text pushes the document record and marks the url visited. -/
def documentsLoop (env : Env) : List PlanTarget → List String →
    List DocumentRecord × List String × List FetchEvent
  | [], visited => ([], visited, [])
  | document :: rest, visited =>
    if visited.contains document.url then documentsLoop env rest visited
    else
      let documentType := getDocumentType document.url
      let documentText := extractDocumentText env document.url documentType
      if documentText != "" then
        let r := documentsLoop env rest (document.url :: visited)
        ({ url := document.url, title := docTitle document.url,
           textContent := documentText, priority := document.priority,
           reason := document.reason, type := documentType } :: r.1,
         r.2.1, FetchEvent.doc document.url :: r.2.2)
      else
        let r := documentsLoop env rest visited
        (r.1, r.2.1, FetchEvent.doc document.url :: r.2.2)

/-- `aiExecuteScrapingPlan(plan)`.  The main page is scraped first inside
its own try/catch (a failure merely omits it) and is not entered into the
visited set; then the sub-page loop over
`plan.sub_pages.slice(0, plan.max_pages || 8)`; then
`plan.documents.slice(0, plan.max_documents || 5)` — when the plan has no
`documents` field this throws
`TypeError: Cannot read properties of undefined (reading 'slice')`,
modelled by the `Except.error`.  Returns the result record together with
the final visited set and the trace of HTTP requests issued. -/
def aiExecuteScrapingPlan (env : Env) (visited0 : List String) (plan : ScrapingPlan) :
    Except String (ExecResult × List String × List FetchEvent) :=
  let mainStep :=
    match env.scrapePage plan.main_page.url with
    | .ok pd => ([mkPageRecord pd plan.main_page.priority "Main subsidy page"],
                 [FetchEvent.page plan.main_page.url])
    | .error _ => ([], [FetchEvent.page plan.main_page.url])
  let subStep := subPagesLoop env (plan.sub_pages.take (natOr plan.max_pages 8)) visited0
  match plan.documents with
  | none => .error "TypeError: Cannot read properties of undefined (reading slice)"
  | some documents =>
    let docStep := documentsLoop env (documents.take (natOr plan.max_documents 5)) subStep.2.1
    let allPages := mainStep.1 ++ subStep.1
    .ok ({ mainPage := allPages.head?, allPages := allPages, allDocuments := docStep.1 },
         docStep.2.1, mainStep.2 ++ subStep.2.2 ++ docStep.2.2)

/-- Is this event a full content retrieval (page or document GET, not a
HEAD probe) of `u`? -/
def isTargetFetch (u : String) : FetchEvent → Bool
  | .page v => v == u
  | .doc v => v == u
  | .head _ => false

/-- The number of full content retrievals (page and document GETs, not
HEAD probes) of `u` in a trace. -/
def countFetches (u : String) (tr : List FetchEvent) : Nat :=
  tr.countP (isTargetFetch u)

/-! ### Classifier (`aiAnalyzeAllData`) -/

/-- The response sanitization of `aiAnalyzeAllData`: trim; if the text
contains a fenced code block opened by three backticks and `json`, take
the (trimmed) content up to the next fence, keeping the text unchanged
when no closing fence exists (the regex then fails to match); then, if a
closing brace occurs after the first opening brace, slice from the first
opening brace to the last closing brace. -/
def sanitizeResponse (response : String) : String :=
  let r0 := trimList response.data
  let r1 :=
    match splitFirstSeq "```json".data r0 with
    | none => r0
    | some ba =>
      match splitFirstSeq "```".data ba.2 with
      | none => r0
      | some inner => trimList inner.1
  let opened := r1.dropWhile (fun c => !(c == '{'))
  let r2 :=
    if opened.contains '}' then (opened.reverse.dropWhile (fun c => !(c == '}'))).reverse
    else r1
  String.mk r2

/-- `fallbackAnalysis(scrapedData)` (the argument is unused in the
source too). -/
def fallbackAnalysis (_scrapedData : ExecResult) : RequirementSet :=
  { attestations := Json.arr [],
    non_attestations := Json.arr [],
    analysis_notes := Json.str "Fallback analysis - no hardcoded patterns used" }

/-- The response handling of `aiAnalyzeAllData` from the oracle's text
on: sanitize, `JSON.parse` (the `parse` argument), and on success build
the requirement set with `||` defaults.  A parse failure falls back; so
does a parsed `null`, whose property access throws a `TypeError` caught
by the same `catch (parseError)`. -/
def classifyResponse (parse : String → Option Json) (scrapedData : ExecResult)
    (response : String) : RequirementSet :=
  match parse (sanitizeResponse response) with
  | none => fallbackAnalysis scrapedData
  | some parsed =>
    if parsed.isNull then fallbackAnalysis scrapedData
    else
      { attestations := jsOr (parsed.getField "attestations") (Json.arr []),
        non_attestations := jsOr (parsed.getField "non_attestations") (Json.arr []),
        analysis_notes := jsOr (parsed.getField "analysis_notes") (Json.str "AI analysis completed") }

/-- `aiAnalyzeAllData(scrapedData, originalUrl)`.  The content
aggregation and prompt selection are elided (they feed the oracle, whose
answer is `env.classifyOracle`); an oracle error is caught by the outer
`catch` and falls back. -/
def aiAnalyzeAllData (env : Env) (scrapedData : ExecResult) : RequirementSet :=
  match env.classifyOracle with
  | .error _ => fallbackAnalysis scrapedData
  | .ok response => classifyResponse env.parseJson scrapedData response

/-! ### Orchestrator (`analyzeSubsidy`) -/

/-- `scrapedData.mainPage?.title || 'Unknown'`. -/
def titleOf (scrapedData : ExecResult) : String :=
  match scrapedData.mainPage with
  | some p => if p.title != "" then p.title else "Unknown"
  | none => "Unknown"

/-- `analyzeSubsidy(url)`: plan, execute, classify, and wrap; any error
thrown along the way is caught and becomes the
`{ url, error, analyzed_at }` shape. -/
def analyzeSubsidy (env : Env) (visited0 : List String) (url : String) : AnalysisResult :=
  match aiCreateScrapingPlan env visited0 url with
  | .error e => .failure url e
  | .ok scrapingPlan =>
    match aiExecuteScrapingPlan env visited0 scrapingPlan with
    | .error e => .failure url e
    | .ok scraped =>
      let requirements := aiAnalyzeAllData env scraped.1
      .success url (titleOf scraped.1) requirements scraped.1.allPages.length scrapingPlan

/-! ### Concrete inputs used by the witnesses and counterexamples -/

/-- An empty executor result. -/
def execEmpty : ExecResult := { mainPage := none, allPages := [], allDocuments := [] }

/-- One harvested page link. -/
def linksC1 : List LinkRecord :=
  [{ url := "https://www.rvo.nl/onderwerpen/a", text := "Voorwaarden", href := "/onderwerpen/a" }]

/-- A plan entry whose url is among the harvested links. -/
def goodC1 : PlanTarget :=
  { url := "https://www.rvo.nl/onderwerpen/a", reason := "requirements page", priority := "high" }

/-- A hallucinated plan entry whose url was never harvested. -/
def badC1 : PlanTarget :=
  { url := "https://www.rvo.nl/onderwerpen/fake", reason := "hallucinated", priority := "high" }

/-- An adversarial plan mixing a real and a hallucinated sub-page. -/
def planC1 : ScrapingPlan :=
  { main_page := { url := "https://www.rvo.nl/m", title := "M", priority := "high" },
    sub_pages := [goodC1, badC1],
    documents := some [],
    max_pages := some 8,
    max_documents := some 5,
    focus_keywords := some ["requirement"] }

/-- Main-page data for the C2 run. -/
def pdC2 : PageData :=
  { url := "https://www.rvo.nl/subsidie", title := "Subsidie", anchors := [], textContent := "inhoud" }

/-- An environment whose plan oracle answers prose that fails JSON
parsing, forcing the fallback plan. -/
def envC2 : Env :=
  { scrapePage := fun _ => .ok pdC2,
    checkUrlExists := fun _ => true,
    fetchDoc := fun _ => none,
    extractPdfText := fun _ => "",
    extractDocxText := fun _ => "",
    extractXlsxText := fun _ => "",
    planOracle := .ok "Sorry, I cannot produce JSON today",
    classifyOracle := .ok "",
    parseJson := fun _ => none,
    parsePlan := fun _ => none }

/-- An environment whose classification oracle answers prose that fails
JSON parsing. -/
def envC3 : Env :=
  { scrapePage := fun _ => .ok pdC2,
    checkUrlExists := fun _ => true,
    fetchDoc := fun _ => none,
    extractPdfText := fun _ => "",
    extractDocxText := fun _ => "",
    extractXlsxText := fun _ => "",
    planOracle := .ok "",
    classifyOracle := .ok "I found several requirements, described in prose",
    parseJson := fun _ => none,
    parsePlan := fun _ => none }

/-- The main url of the C4 runs. -/
def urlC4 : String := "https://www.rvo.nl/onderwerpen/dhi"

/-- Main-page data for the C4 runs. -/
def pdC4 : PageData :=
  { url := urlC4, title := "DHI", anchors := [], textContent := "tekst" }

/-- A well-formed plan (with a `documents` field) for the C4 runs. -/
def planC4 : ScrapingPlan :=
  { main_page := { url := urlC4, title := "DHI", priority := "high" },
    sub_pages := [],
    documents := some [],
    max_pages := some 8,
    max_documents := some 5,
    focus_keywords := some [] }

/-- An environment where planning succeeds but the classification oracle
is unreachable. -/
def envC4 : Env :=
  { scrapePage := fun _ => .ok pdC4,
    checkUrlExists := fun _ => true,
    fetchDoc := fun _ => none,
    extractPdfText := fun _ => "",
    extractDocxText := fun _ => "",
    extractXlsxText := fun _ => "",
    planOracle := .ok "a syntactically valid plan",
    classifyOracle := .error "connect ECONNREFUSED api.openai.com",
    parseJson := fun _ => none,
    parsePlan := fun _ => some planC4 }

/-- An environment where the plan oracle is unreachable. -/
def envC4a : Env :=
  { scrapePage := fun _ => .ok pdC4,
    checkUrlExists := fun _ => true,
    fetchDoc := fun _ => none,
    extractPdfText := fun _ => "",
    extractDocxText := fun _ => "",
    extractXlsxText := fun _ => "",
    planOracle := .error "connect ECONNREFUSED api.openai.com",
    classifyOracle := .ok "irrelevant",
    parseJson := fun _ => none,
    parsePlan := fun _ => none }

/-- A single anchor that is both an on-domain page link and a document
link. -/
def anchorsC5 : List Anchor := [{ href := "/bijlage.pdf", text := "Download de bijlage" }]

/-- The resolved url of `anchorsC5`. -/
def uC5 : String := "https://www.rvo.nl/bijlage.pdf"

/-- The anchor used by the C5 witness. -/
def aW5 : Anchor := { href := "/formulier.docx", text := " Aanvraagformulier " }

/-- A page whose markup holds `aW5`. -/
def anchorsW5 : List Anchor := [aW5]

/-- The resolved url of `aW5`. -/
def uW5 : String := "https://www.rvo.nl/formulier.docx"

/-- The document url of the C6 counterexample. -/
def uC6 : String := "https://www.rvo.nl/voorwaarden.pdf"

/-- An environment where the document download succeeds but the PDF
extractor returns empty text. -/
def envC6 : Env :=
  { scrapePage := fun _ => .error "HTTP error! status: 500",
    checkUrlExists := fun _ => false,
    fetchDoc := fun _ => some "bytes",
    extractPdfText := fun _ => "",
    extractDocxText := fun _ => "",
    extractXlsxText := fun _ => "",
    planOracle := .ok "",
    classifyOracle := .ok "",
    parseJson := fun _ => none,
    parsePlan := fun _ => none }

/-- A plan with one document target, `uC6`. -/
def planC6 : ScrapingPlan :=
  { main_page := { url := "https://www.rvo.nl/m", title := "M", priority := "high" },
    sub_pages := [],
    documents := some [{ url := uC6, reason := "voorwaarden", priority := "high" }],
    max_pages := some 8,
    max_documents := some 5,
    focus_keywords := some [] }

/-- The document url of the C6 witness. -/
def uW6 : String := "https://www.rvo.nl/regeling.pdf"

/-- An environment whose PDF extractor returns nonempty text. -/
def envW6 : Env :=
  { scrapePage := fun _ => .error "HTTP error! status: 500",
    checkUrlExists := fun _ => false,
    fetchDoc := fun _ => some "bytes",
    extractPdfText := fun _ => "Artikel 1",
    extractDocxText := fun _ => "",
    extractXlsxText := fun _ => "",
    planOracle := .ok "",
    classifyOracle := .ok "",
    parseJson := fun _ => none,
    parsePlan := fun _ => none }

/-- A plan with one document target, `uW6`. -/
def planW6 : ScrapingPlan :=
  { main_page := { url := "https://www.rvo.nl/m", title := "M", priority := "high" },
    sub_pages := [],
    documents := some [{ url := uW6, reason := "regeling", priority := "high" }],
    max_pages := some 8,
    max_documents := some 5,
    focus_keywords := some [] }

/-- The record the C6 witness run produces. -/
def recW6 : DocumentRecord :=
  { url := uW6, title := "regeling.pdf", textContent := "Artikel 1",
    priority := "high", reason := "regeling", type := "pdf" }

/-- The full output of the C6 witness run. -/
def outW6 : ExecResult × List String × List FetchEvent :=
  ({ mainPage := none, allPages := [], allDocuments := [recW6] },
   [uW6],
   [FetchEvent.page "https://www.rvo.nl/m", FetchEvent.doc uW6])

/-- The url appearing both as sub-page and (twice) as document in the C9
counterexample. -/
def uC9 : String := "https://www.rvo.nl/data.bin"

/-- An environment where the sub-page existence probe fails and the
document download succeeds (with an unrecognized type, so extraction is
empty and the url never becomes visited). -/
def envC9 : Env :=
  { scrapePage := fun _ => .ok pdC2,
    checkUrlExists := fun _ => false,
    fetchDoc := fun _ => some "b",
    extractPdfText := fun _ => "",
    extractDocxText := fun _ => "",
    extractXlsxText := fun _ => "",
    planOracle := .ok "",
    classifyOracle := .ok "",
    parseJson := fun _ => none,
    parsePlan := fun _ => none }

/-- A validated plan with `uC9` in `sub_pages` and in `documents`. -/
def planC9 : ScrapingPlan :=
  { main_page := { url := "https://www.rvo.nl/m", title := "M", priority := "high" },
    sub_pages := [{ url := uC9, reason := "r", priority := "high" }],
    documents := some [{ url := uC9, reason := "r", priority := "high" },
                       { url := uC9, reason := "r", priority := "low" }],
    max_pages := some 8,
    max_documents := some 5,
    focus_keywords := some [] }

/-- The url of the C9 witness. -/
def uW9 : String := "https://www.rvo.nl/aanvraag.pdf"

/-- Main-page data for the C9 witness. -/
def pdW9 : PageData :=
  { url := "https://www.rvo.nl/hoofd", title := "Hoofd", anchors := [], textContent := "t" }

/-- An environment where every fetch of the C9 witness succeeds. -/
def envW9 : Env :=
  { scrapePage := fun _ => .ok pdW9,
    checkUrlExists := fun _ => true,
    fetchDoc := fun _ => some "b",
    extractPdfText := fun _ => "inhoud",
    extractDocxText := fun _ => "",
    extractXlsxText := fun _ => "",
    planOracle := .ok "",
    classifyOracle := .ok "",
    parseJson := fun _ => none,
    parsePlan := fun _ => none }

/-- A plan with `uW9` both as sub-page and as document. -/
def planW9 : ScrapingPlan :=
  { main_page := { url := "https://www.rvo.nl/hoofd", title := "Hoofd", priority := "high" },
    sub_pages := [{ url := uW9, reason := "r", priority := "high" }],
    documents := some [{ url := uW9, reason := "r", priority := "high" }],
    max_pages := some 8,
    max_documents := some 5,
    focus_keywords := some [] }

/-- The output of the C9 witness run: `uW9` is fetched once as a page,
then skipped as a document because it is visited. -/
def outW9 : ExecResult × List String × List FetchEvent :=
  ({ mainPage := some (mkPageRecord pdW9 "high" "Main subsidy page"),
     allPages := [mkPageRecord pdW9 "high" "Main subsidy page", mkPageRecord pdW9 "high" "r"],
     allDocuments := [] },
   [uW9],
   [FetchEvent.page "https://www.rvo.nl/hoofd", FetchEvent.head uW9, FetchEvent.page uW9])

/-- A url of document type `pptx`. -/
def urlW10 : String := "https://www.rvo.nl/presentatie.pptx"

/-- An environment whose document download succeeds. -/
def envW10 : Env :=
  { scrapePage := fun _ => .ok pdC2,
    checkUrlExists := fun _ => true,
    fetchDoc := fun _ => some "bytes",
    extractPdfText := fun _ => "tekst",
    extractDocxText := fun _ => "tekst",
    extractXlsxText := fun _ => "tekst",
    planOracle := .ok "",
    classifyOracle := .ok "",
    parseJson := fun _ => none,
    parsePlan := fun _ => none }

/-- A document list holding the pptx target. -/
def docsW10 : List PlanTarget := [{ url := urlW10, reason := "slides", priority := "high" }]

/-! ### Theorems -/

/-- Claim C1: validator soundness — every entry of
`validateScrapingPlan(plan, actualLinks).sub_pages` has a url that is a
member of the harvested page-link set, for every plan, including plans
holding urls absent from the harvested links. -/
theorem c1_validator_soundness (plan : ScrapingPlan) (actualLinks : List LinkRecord)
    (entry : PlanTarget) (h : entry ∈ (validateScrapingPlan plan actualLinks).sub_pages) :
    entry.url ∈ actualLinks.map (fun link => link.url) := by
  simp only [validateScrapingPlan, List.mem_filter, List.contains, List.elem_eq_mem,
    decide_eq_true_eq] at h
  exact h.2

/-- Witness for C1: on an adversarial plan holding a hallucinated url,
the surviving entry's url is among the harvested links. -/
theorem c1_witness :
    goodC1 ∈ (validateScrapingPlan planC1 linksC1).sub_pages ∧
    goodC1.url ∈ linksC1.map (fun link => link.url) :=
  ⟨by decide, c1_validator_soundness planC1 linksC1 goodC1 (by decide)⟩

/-- Claim C8: validator frame property — `validateScrapingPlan` leaves
every part of the plan other than `sub_pages` unchanged. -/
theorem c8_validator_frame (plan : ScrapingPlan) (actualLinks : List LinkRecord) :
    (validateScrapingPlan plan actualLinks).main_page = plan.main_page ∧
    (validateScrapingPlan plan actualLinks).documents = plan.documents ∧
    (validateScrapingPlan plan actualLinks).max_pages = plan.max_pages ∧
    (validateScrapingPlan plan actualLinks).max_documents = plan.max_documents ∧
    (validateScrapingPlan plan actualLinks).focus_keywords = plan.focus_keywords :=
  ⟨rfl, rfl, rfl, rfl, rfl⟩

/-- Claim C3: classifier fallback totality — whenever the oracle's
classification response fails JSON parsing after sanitization, the
classification stage returns the fallback requirement set: empty
attestation and non-attestation sequences and a fixed non-empty analysis
note.  (The embedding is a total function, so no exception can
escape.) -/
theorem c3_fallback_totality (env : Env) (scrapedData : ExecResult) (response : String)
    (h1 : env.classifyOracle = .ok response)
    (h2 : env.parseJson (sanitizeResponse response) = none) :
    aiAnalyzeAllData env scrapedData = fallbackAnalysis scrapedData ∧
    (aiAnalyzeAllData env scrapedData).attestations = Json.arr [] ∧
    (aiAnalyzeAllData env scrapedData).non_attestations = Json.arr [] ∧
    (aiAnalyzeAllData env scrapedData).analysis_notes =
      Json.str "Fallback analysis - no hardcoded patterns used" ∧
    "Fallback analysis - no hardcoded patterns used" ≠ "" := by
  have hstep : aiAnalyzeAllData env scrapedData =
      classifyResponse env.parseJson scrapedData response := by
    unfold aiAnalyzeAllData
    rw [h1]
  have hmain : aiAnalyzeAllData env scrapedData = fallbackAnalysis scrapedData := by
    rw [hstep]
    unfold classifyResponse
    rw [h2]
  exact ⟨hmain, by rw [hmain]; rfl, by rw [hmain]; rfl, by rw [hmain]; rfl, by decide⟩

/-- Witness for C3: a prose classification response yields the fallback
requirement set. -/
theorem c3_witness : aiAnalyzeAllData envC3 execEmpty = fallbackAnalysis execEmpty :=
  (c3_fallback_totality envC3 execEmpty "I found several requirements, described in prose"
    rfl rfl).1

/-- Claim C2 (code bug): when the plan oracle's response fails JSON
parsing, the synthesizer does return the fallback plan without retrying —
but that plan has no `documents` field at all, so the Crawl Executor
throws a `TypeError` on `plan.documents.slice` and the whole run ends in
the error shape instead of executing the degenerate plan. -/
theorem c2_fallback_plan_crashes_executor :
    aiCreateScrapingPlan envC2 [] "https://www.rvo.nl/subsidie" =
      .ok (createFallbackScrapingPlan "https://www.rvo.nl/subsidie" pdC2) ∧
    (createFallbackScrapingPlan "https://www.rvo.nl/subsidie" pdC2).documents = none ∧
    (aiExecuteScrapingPlan envC2 []
      (createFallbackScrapingPlan "https://www.rvo.nl/subsidie" pdC2)).isOk = false ∧
    analyzeSubsidy envC2 [] "https://www.rvo.nl/subsidie" =
      .failure "https://www.rvo.nl/subsidie"
        "TypeError: Cannot read properties of undefined (reading slice)" :=
  ⟨rfl, rfl, rfl, rfl⟩

/-- Counterexample for C7: on a successfully parsed but empty JSON
object, the `analysis_notes` field does not default to the empty string —
it defaults to the non-empty string `AI analysis completed`. -/
theorem c7_counterexample :
    (classifyResponse (fun _ => some (Json.obj [])) execEmpty "an oracle response").analysis_notes
      = Json.str "AI analysis completed" ∧
    Json.str "AI analysis completed" ≠ Json.str "" := by
  refine ⟨rfl, fun h => ?_⟩
  rw [Json.str.injEq] at h
  exact absurd h (by decide)

/-- Claim C7 as amended: when the classification response parses as a
non-null JSON value, a missing `attestations` field defaults to the empty
sequence, a missing `non_attestations` field defaults to the empty
sequence, and a missing `analysis_notes` field defaults to the non-empty
string `AI analysis completed` (not the empty string), so the returned
shape is always fully populated. -/
theorem c7_partial_json_defaults (parse : String → Option Json) (scrapedData : ExecResult)
    (response : String) (parsed : Json)
    (hp : parse (sanitizeResponse response) = some parsed)
    (hnn : parsed.isNull = false)
    (ha : parsed.getField "attestations" = none)
    (hn : parsed.getField "non_attestations" = none)
    (hs : parsed.getField "analysis_notes" = none) :
    classifyResponse parse scrapedData response =
      { attestations := Json.arr [],
        non_attestations := Json.arr [],
        analysis_notes := Json.str "AI analysis completed" } := by
  unfold classifyResponse
  rw [hp]
  simp only [hnn, ha, hn, hs, Bool.false_eq_true, if_false]
  rfl

/-- Witness for C7: a parsed object with only an unrelated field yields
the three defaults. -/
theorem c7_witness :
    classifyResponse (fun _ => some (Json.obj [("foo", Json.bool true)])) execEmpty "tekst" =
      { attestations := Json.arr [],
        non_attestations := Json.arr [],
        analysis_notes := Json.str "AI analysis completed" } :=
  c7_partial_json_defaults (fun _ => some (Json.obj [("foo", Json.bool true)])) execEmpty
    "tekst" (Json.obj [("foo", Json.bool true)]) rfl rfl rfl rfl rfl

/-- `List.contains` agrees with membership on strings. -/
theorem contains_eq_true_iff (l : List String) (u : String) :
    l.contains u = true ↔ u ∈ l := by
  simp [List.contains, List.elem_eq_mem]

/-- Duplicate removal by url preserves the set of urls (relative to the
urls already seen). -/
theorem mem_map_url_dedupByUrl (u : String) (ls : List LinkRecord) (seen : List String) :
    u ∈ (dedupByUrl seen ls).map LinkRecord.url ↔
      u ∈ ls.map LinkRecord.url ∧ u ∉ seen := by
  induction ls generalizing seen with
  | nil => simp [dedupByUrl]
  | cons l ls ih =>
    cases hc : List.contains seen l.url with
    | true =>
      have hl : l.url ∈ seen := (contains_eq_true_iff seen l.url).mp hc
      simp only [dedupByUrl, hc, if_true, List.map_cons, List.mem_cons, ih]
      constructor
      · exact fun h => ⟨Or.inr h.1, h.2⟩
      · rintro ⟨h1 | h1, h2⟩
        · exact absurd (h1 ▸ hl) h2
        · exact ⟨h1, h2⟩
    | false =>
      have hl : l.url ∉ seen := fun hm => by
        rw [(contains_eq_true_iff seen l.url).mpr hm] at hc
        cases hc
      simp only [dedupByUrl, hc, Bool.false_eq_true, if_false, List.map_cons, List.mem_cons, ih,
        List.mem_cons, not_or]
      constructor
      · rintro (rfl | ⟨h1, h2, h3⟩)
        · exact ⟨Or.inl rfl, hl⟩
        · exact ⟨Or.inr h1, h3⟩
      · rintro ⟨h1 | h1, h2⟩
        · exact Or.inl h1
        · by_cases hu : u = l.url
          · exact Or.inl hu
          · exact Or.inr ⟨h1, hu, h2⟩

/-- Counterexample for C5: a single on-domain anchor with a `.pdf` href
and nonempty text produces the SAME url in the page-link set and in the
document-link set — the two harvested sets are not disjoint. -/
theorem c5_counterexample :
    uC5 ∈ (extractActualLinks [] anchorsC5).map LinkRecord.url ∧
    uC5 ∈ (extractDocumentLinks [] anchorsC5).map DocLinkRecord.url := by
  decide

/-- Claim C5 as amended: the page-link set and the document-link set need
not be disjoint.  A link whose resolved url matches a document extension
appears in the document-link set, and it additionally appears in the
page-link set whenever it has nonempty trimmed anchor text, its resolved
url contains the target domain, and it is not already visited: document
links are not excluded from the page-link set. -/
theorem c5_document_links_not_excluded (visited : List String) (anchors : List Anchor)
    (a : Anchor) (u : String)
    (hmem : a ∈ anchors)
    (hhref : (a.href != "") = true)
    (htext : (strTrim a.text != "") = true)
    (hres : resolvePageHref a.href = some u)
    (hdom : strIncludes u "rvo.nl" = true)
    (hvis : visited.contains u = false)
    (hdocres : resolveDocHref a.href = u)
    (hdoc : isDocumentUrl u = true) :
    u ∈ (extractActualLinks visited anchors).map LinkRecord.url ∧
    u ∈ (extractDocumentLinks visited anchors).map DocLinkRecord.url := by
  constructor
  · unfold extractActualLinks
    rw [mem_map_url_dedupByUrl]
    refine ⟨List.mem_map.mpr ⟨⟨u, takeChars 100 (strTrim a.text), a.href⟩,
      List.mem_filterMap.mpr ⟨a, hmem, ?_⟩, rfl⟩, List.not_mem_nil u⟩
    simp only [hhref, htext, Bool.and_self, if_true, hres, hdom, hvis, Bool.not_false,
      Bool.and_true]
  · unfold extractDocumentLinks
    refine List.mem_map.mpr ⟨⟨u, takeChars 100 (strTrim a.text), a.href, getDocumentType u⟩,
      List.mem_filterMap.mpr ⟨a, hmem, ?_⟩, rfl⟩
    simp only [hhref, if_true, hdocres, hdoc, hvis, Bool.not_false, Bool.and_self]

/-- Witness for C5's amended claim: an on-domain `.docx` anchor with
nonempty text lands in both harvested sets. -/
theorem c5_witness :
    uW5 ∈ (extractActualLinks [] anchorsW5).map LinkRecord.url ∧
    uW5 ∈ (extractDocumentLinks [] anchorsW5).map DocLinkRecord.url :=
  c5_document_links_not_excluded [] anchorsW5 aW5 uW5 (by decide) (by decide) (by decide)
    (by decide) (by decide) (by decide) (by decide) (by decide)

/-- Every record the document loop produces has nonempty extracted
text. -/
theorem documentsLoop_textContent_ne_empty (env : Env) (docs : List PlanTarget)
    (v : List String) (d : DocumentRecord) (hd : d ∈ (documentsLoop env docs v).1) :
    d.textContent ≠ "" := by
  induction docs generalizing v with
  | nil => simp [documentsLoop] at hd
  | cons doc rest ih =>
    rw [documentsLoop] at hd
    cases hc : List.contains v doc.url with
    | true =>
      rw [hc] at hd
      simp only [if_true] at hd
      exact ih v hd
    | false =>
      rw [hc] at hd
      simp only [Bool.false_eq_true, if_false] at hd
      cases ht : extractDocumentText env doc.url (getDocumentType doc.url) != "" with
      | true =>
        rw [ht] at hd
        simp only [if_true, List.mem_cons] at hd
        cases hd with
        | inl hd =>
          have : d.textContent = extractDocumentText env doc.url (getDocumentType doc.url) := by
            rw [hd]
          rw [this]
          exact bne_iff_ne.mp ht
        | inr hd => exact ih _ hd
      | false =>
        rw [ht] at hd
        simp only [Bool.false_eq_true, if_false] at hd
        exact ih v hd

/-- Counterexample for C6: a document whose fetch succeeds but whose
extractor returns empty text produces NO DocumentRecord — the executor's
`allDocuments` stays empty and the url is not marked visited. -/
theorem c6_counterexample :
    envC6.fetchDoc uC6 = some "bytes" ∧
    aiExecuteScrapingPlan envC6 [] planC6 =
      .ok ({ mainPage := none, allPages := [], allDocuments := [] }, [],
           [FetchEvent.page "https://www.rvo.nl/m", FetchEvent.doc uC6]) :=
  ⟨rfl, rfl⟩

/-- Claim C6 as amended: a fetched document whose extractor returns empty
text is NOT recorded — every DocumentRecord in the executor's output has
nonempty `textContent`; empty extraction causes the target to be silently
skipped (and its url left unvisited). -/
theorem c6_empty_extraction_skips_record (env : Env) (v0 : List String) (plan : ScrapingPlan)
    (out : ExecResult × List String × List FetchEvent)
    (hexec : aiExecuteScrapingPlan env v0 plan = .ok out)
    (d : DocumentRecord) (hd : d ∈ out.1.allDocuments) :
    d.textContent ≠ "" := by
  unfold aiExecuteScrapingPlan at hexec
  cases hdocs : plan.documents with
  | none =>
    rw [hdocs] at hexec
    exact absurd hexec (by simp)
  | some docs =>
    rw [hdocs] at hexec
    simp only [Except.ok.injEq] at hexec
    rw [← hexec] at hd
    exact documentsLoop_textContent_ne_empty env _ _ d hd

/-- Witness for C6's amended claim: the record produced from a document
with nonempty extracted text has nonempty `textContent`. -/
theorem c6_witness : recW6.textContent ≠ "" :=
  c6_empty_extraction_skips_record envW6 [] planW6 outW6 rfl recW6 (by decide)

/-- Executing the fallback plan always throws, because the plan has no
`documents` field. -/
theorem exec_fallback_plan_errors (env : Env) (v0 : List String) (url : String)
    (pd : PageData) :
    aiExecuteScrapingPlan env v0 (createFallbackScrapingPlan url pd) =
      .error "TypeError: Cannot read properties of undefined (reading slice)" := rfl

/-- Counterexample for C4: with the classification oracle unreachable but
everything else healthy, `analyzeSubsidy` returns the SUCCESS shape (with
the fallback, empty requirement set and one analyzed page) — not the
`{ url, error, analyzed_at }` error shape the claim demands. -/
theorem c4_counterexample :
    envC4.classifyOracle = .error "connect ECONNREFUSED api.openai.com" ∧
    analyzeSubsidy envC4 [] urlC4 =
      .success urlC4 "DHI" (fallbackAnalysis execEmpty) 1 planC4 ∧
    (analyzeSubsidy envC4 [] urlC4).isFailure = false :=
  ⟨rfl, rfl, rfl⟩

/-- Claim C4 as amended: an oracle failure at plan-synthesis time does
end the whole run in the error shape (but only because the fallback plan
lacks a `documents` field and crashes the executor), while an oracle
failure at classification time does NOT — the run returns the success
shape whose requirement set is the fallback (empty) one. -/
theorem c4_oracle_failure_modes :
    (∀ (env : Env) (v0 : List String) (url e : String),
      env.planOracle = .error e → (analyzeSubsidy env v0 url).isFailure = true) ∧
    (∀ (env : Env) (v0 : List String) (url e r : String) (plan : ScrapingPlan)
      (pd : PageData) (docs : List PlanTarget),
      env.classifyOracle = .error e →
      env.scrapePage url = .ok pd →
      env.planOracle = .ok r →
      env.parsePlan r = some plan →
      plan.documents = some docs →
      (analyzeSubsidy env v0 url).isFailure = false ∧
      (analyzeSubsidy env v0 url).requirementsOf = some (fallbackAnalysis execEmpty)) := by
  constructor
  · intro env v0 url e hp
    unfold analyzeSubsidy aiCreateScrapingPlan
    cases hs : env.scrapePage url with
    | error err => rfl
    | ok pd =>
      simp only [hp, exec_fallback_plan_errors]
      rfl
  · intro env v0 url e r plan pd docs hc hs hp hpp hdocs
    have hplan : aiCreateScrapingPlan env v0 url =
        .ok (validateScrapingPlan plan (extractActualLinks v0 pd.anchors)) := by
      unfold aiCreateScrapingPlan
      simp only [hs, hp, hpp]
    have hvdocs : (validateScrapingPlan plan (extractActualLinks v0 pd.anchors)).documents =
        some docs := hdocs
    have hexec : ∃ out, aiExecuteScrapingPlan env v0
        (validateScrapingPlan plan (extractActualLinks v0 pd.anchors)) = .ok out := by
      unfold aiExecuteScrapingPlan
      simp only [hvdocs]
      exact ⟨_, rfl⟩
    obtain ⟨out, hexec⟩ := hexec
    have hrun : analyzeSubsidy env v0 url =
        .success url (titleOf out.1) (aiAnalyzeAllData env out.1) out.1.allPages.length
          (validateScrapingPlan plan (extractActualLinks v0 pd.anchors)) := by
      unfold analyzeSubsidy
      simp only [hplan, hexec]
    have hreq : aiAnalyzeAllData env out.1 = fallbackAnalysis execEmpty := by
      unfold aiAnalyzeAllData
      simp only [hc]
      rfl
    rw [hrun, hreq]
    exact ⟨rfl, rfl⟩

/-- Witness for C4's amended claim: a plan-oracle outage yields the error
shape; a classification-oracle outage yields the success shape with the
fallback requirement set. -/
theorem c4_witness :
    (analyzeSubsidy envC4a [] urlC4).isFailure = true ∧
    (analyzeSubsidy envC4 [] urlC4).isFailure = false ∧
    (analyzeSubsidy envC4 [] urlC4).requirementsOf = some (fallbackAnalysis execEmpty) :=
  ⟨c4_oracle_failure_modes.1 envC4a [] urlC4 "connect ECONNREFUSED api.openai.com" rfl,
   (c4_oracle_failure_modes.2 envC4 [] urlC4 "connect ECONNREFUSED api.openai.com"
     "a syntactically valid plan" planC4 pdC4 [] rfl rfl rfl rfl rfl).1,
   (c4_oracle_failure_modes.2 envC4 [] urlC4 "connect ECONNREFUSED api.openai.com"
     "a syntactically valid plan" planC4 pdC4 [] rfl rfl rfl rfl rfl).2⟩

/-- `List.contains` disagrees with membership on strings exactly when the
element is absent. -/
theorem contains_eq_false_iff (l : List String) (u : String) :
    l.contains u = false ↔ u ∉ l := by
  constructor
  · intro h hm
    rw [(contains_eq_true_iff l u).mpr hm] at h
    cases h
  · intro hm
    cases h : l.contains u with
    | true => exact absurd ((contains_eq_true_iff l u).mp h) hm
    | false => rfl

/-- Unfolding `countFetches` over a cons. -/
theorem countFetches_cons (u : String) (e : FetchEvent) (tr : List FetchEvent) :
    countFetches u (e :: tr) = countFetches u tr + if isTargetFetch u e then 1 else 0 :=
  List.countP_cons _ _ _

/-- `countFetches` distributes over append. -/
theorem countFetches_append (u : String) (tr1 tr2 : List FetchEvent) :
    countFetches u (tr1 ++ tr2) = countFetches u tr1 + countFetches u tr2 :=
  List.countP_append _ _ _

/-- A url already visited is never fetched by the sub-page loop, and it
stays in the visited set. -/
theorem subPagesLoop_of_visited (env : Env) (u : String) (ts : List PlanTarget)
    (v : List String) (hv : u ∈ v) :
    countFetches u (subPagesLoop env ts v).2.2 = 0 ∧ u ∈ (subPagesLoop env ts v).2.1 := by
  induction ts generalizing v with
  | nil => exact ⟨rfl, hv⟩
  | cons sp rest ih =>
    rw [subPagesLoop]
    cases hc : List.contains v sp.url with
    | true =>
      simp only [if_true]
      exact ih v hv
    | false =>
      have hne : (sp.url == u) = false := by
        rw [beq_eq_false_iff_ne]
        intro h
        have hmem : List.contains v sp.url = true :=
          (contains_eq_true_iff v sp.url).mpr (by rw [h]; exact hv)
        rw [hc] at hmem
        cases hmem
      simp only [Bool.false_eq_true, if_false]
      cases hpr : env.checkUrlExists sp.url with
      | false =>
        simp only [Bool.false_eq_true, if_false]
        obtain ⟨h1, h2⟩ := ih v hv
        exact ⟨by simp [countFetches_cons, isTargetFetch, h1], h2⟩
      | true =>
        simp only [if_true]
        cases hsc : env.scrapePage sp.url with
        | ok pd =>
          obtain ⟨h1, h2⟩ := ih (sp.url :: v) (List.mem_cons_of_mem _ hv)
          exact ⟨by simp [countFetches_cons, isTargetFetch, hne, h1], h2⟩
        | error err =>
          obtain ⟨h1, h2⟩ := ih v hv
          exact ⟨by simp [countFetches_cons, isTargetFetch, hne, h1], h2⟩

/-- When `u` is reachable (probe passes, scrape succeeds), the sub-page
loop starting without `u` visited fetches `u` either zero times (leaving
it unvisited) or exactly once (marking it visited). -/
theorem subPagesLoop_of_not_visited (env : Env) (u : String)
    (hprobe : env.checkUrlExists u = true) (hscr : (env.scrapePage u).isOk = true)
    (ts : List PlanTarget) (v : List String) (hv : u ∉ v) :
    (countFetches u (subPagesLoop env ts v).2.2 = 0 ∧ u ∉ (subPagesLoop env ts v).2.1) ∨
    (countFetches u (subPagesLoop env ts v).2.2 = 1 ∧ u ∈ (subPagesLoop env ts v).2.1) := by
  induction ts generalizing v with
  | nil => exact Or.inl ⟨rfl, hv⟩
  | cons sp rest ih =>
    rw [subPagesLoop]
    by_cases hequ : sp.url = u
    · subst hequ
      have hc : List.contains v sp.url = false := (contains_eq_false_iff v sp.url).mpr hv
      simp only [hc, Bool.false_eq_true, if_false, hprobe, if_true]
      cases hsc : env.scrapePage sp.url with
      | error err =>
        rw [hsc] at hscr
        simp [Except.isOk, Except.toBool] at hscr
      | ok pd =>
        obtain ⟨h1, h2⟩ :=
          subPagesLoop_of_visited env sp.url rest (sp.url :: v) (List.mem_cons_self _ _)
        exact Or.inr ⟨by simp [countFetches_cons, isTargetFetch, h1], h2⟩
    · have hbeq : (sp.url == u) = false := beq_eq_false_iff_ne.mpr hequ
      cases hc : List.contains v sp.url with
      | true =>
        simp only [if_true]
        exact ih v hv
      | false =>
        simp only [Bool.false_eq_true, if_false]
        cases hpr : env.checkUrlExists sp.url with
        | false =>
          simp only [Bool.false_eq_true, if_false]
          rcases ih v hv with ⟨h1, h2⟩ | ⟨h1, h2⟩
          · exact Or.inl ⟨by simp [countFetches_cons, isTargetFetch, h1], h2⟩
          · exact Or.inr ⟨by simp [countFetches_cons, isTargetFetch, h1], h2⟩
        | true =>
          simp only [if_true]
          cases hsc : env.scrapePage sp.url with
          | ok pd =>
            have hv' : u ∉ sp.url :: v := by
              intro hm
              rcases List.mem_cons.mp hm with h | h
              · exact hequ h.symm
              · exact hv h
            rcases ih (sp.url :: v) hv' with ⟨h1, h2⟩ | ⟨h1, h2⟩
            · exact Or.inl ⟨by simp [countFetches_cons, isTargetFetch, hbeq, h1], h2⟩
            · exact Or.inr ⟨by simp [countFetches_cons, isTargetFetch, hbeq, h1], h2⟩
          | error err =>
            rcases ih v hv with ⟨h1, h2⟩ | ⟨h1, h2⟩
            · exact Or.inl ⟨by simp [countFetches_cons, isTargetFetch, hbeq, h1], h2⟩
            · exact Or.inr ⟨by simp [countFetches_cons, isTargetFetch, hbeq, h1], h2⟩

/-- A url already visited is never fetched by the document loop, and it
stays in the visited set. -/
theorem documentsLoop_of_visited (env : Env) (u : String) (ds : List PlanTarget)
    (v : List String) (hv : u ∈ v) :
    countFetches u (documentsLoop env ds v).2.2 = 0 ∧ u ∈ (documentsLoop env ds v).2.1 := by
  induction ds generalizing v with
  | nil => exact ⟨rfl, hv⟩
  | cons d rest ih =>
    rw [documentsLoop]
    cases hc : List.contains v d.url with
    | true =>
      simp only [if_true]
      exact ih v hv
    | false =>
      have hne : (d.url == u) = false := by
        rw [beq_eq_false_iff_ne]
        intro h
        have hmem : List.contains v d.url = true :=
          (contains_eq_true_iff v d.url).mpr (by rw [h]; exact hv)
        rw [hc] at hmem
        cases hmem
      simp only [Bool.false_eq_true, if_false]
      cases ht : extractDocumentText env d.url (getDocumentType d.url) != "" with
      | true =>
        simp only [if_true]
        obtain ⟨h1, h2⟩ := ih (d.url :: v) (List.mem_cons_of_mem _ hv)
        exact ⟨by simp [countFetches_cons, isTargetFetch, hne, h1], h2⟩
      | false =>
        simp only [Bool.false_eq_true, if_false]
        obtain ⟨h1, h2⟩ := ih v hv
        exact ⟨by simp [countFetches_cons, isTargetFetch, hne, h1], h2⟩

/-- When extraction of `u` yields nonempty text, the document loop
starting without `u` visited fetches `u` either zero times (leaving it
unvisited) or exactly once (marking it visited). -/
theorem documentsLoop_of_not_visited (env : Env) (u : String)
    (hext : extractDocumentText env u (getDocumentType u) ≠ "")
    (ds : List PlanTarget) (v : List String) (hv : u ∉ v) :
    (countFetches u (documentsLoop env ds v).2.2 = 0 ∧ u ∉ (documentsLoop env ds v).2.1) ∨
    (countFetches u (documentsLoop env ds v).2.2 = 1 ∧ u ∈ (documentsLoop env ds v).2.1) := by
  induction ds generalizing v with
  | nil => exact Or.inl ⟨rfl, hv⟩
  | cons d rest ih =>
    rw [documentsLoop]
    by_cases hequ : d.url = u
    · subst hequ
      have hc : List.contains v d.url = false := (contains_eq_false_iff v d.url).mpr hv
      have ht : (extractDocumentText env d.url (getDocumentType d.url) != "") = true :=
        bne_iff_ne.mpr hext
      simp only [hc, Bool.false_eq_true, if_false, ht, if_true]
      obtain ⟨h1, h2⟩ :=
        documentsLoop_of_visited env d.url rest (d.url :: v) (List.mem_cons_self _ _)
      exact Or.inr ⟨by simp [countFetches_cons, isTargetFetch, h1], h2⟩
    · have hbeq : (d.url == u) = false := beq_eq_false_iff_ne.mpr hequ
      cases hc : List.contains v d.url with
      | true =>
        simp only [if_true]
        exact ih v hv
      | false =>
        simp only [Bool.false_eq_true, if_false]
        cases ht : extractDocumentText env d.url (getDocumentType d.url) != "" with
        | true =>
          simp only [if_true]
          have hv' : u ∉ d.url :: v := by
            intro hm
            rcases List.mem_cons.mp hm with h | h
            · exact hequ h.symm
            · exact hv h
          rcases ih (d.url :: v) hv' with ⟨h1, h2⟩ | ⟨h1, h2⟩
          · exact Or.inl ⟨by simp [countFetches_cons, isTargetFetch, hbeq, h1], h2⟩
          · exact Or.inr ⟨by simp [countFetches_cons, isTargetFetch, hbeq, h1], h2⟩
        | false =>
          simp only [Bool.false_eq_true, if_false]
          rcases ih v hv with ⟨h1, h2⟩ | ⟨h1, h2⟩
          · exact Or.inl ⟨by simp [countFetches_cons, isTargetFetch, hbeq, h1], h2⟩
          · exact Or.inr ⟨by simp [countFetches_cons, isTargetFetch, hbeq, h1], h2⟩

/-- The full trace of a successful execution: the main-page GET, then the
sub-page loop's requests, then the document loop's requests. -/
theorem exec_trace (env : Env) (v0 : List String) (plan : ScrapingPlan)
    (docs : List PlanTarget) (out : ExecResult × List String × List FetchEvent)
    (hdocs : plan.documents = some docs)
    (hexec : aiExecuteScrapingPlan env v0 plan = .ok out) :
    out.2.2 = FetchEvent.page plan.main_page.url ::
      ((subPagesLoop env (plan.sub_pages.take (natOr plan.max_pages 8)) v0).2.2 ++
       (documentsLoop env (docs.take (natOr plan.max_documents 5))
         (subPagesLoop env (plan.sub_pages.take (natOr plan.max_pages 8)) v0).2.1).2.2) := by
  unfold aiExecuteScrapingPlan at hexec
  cases hms : env.scrapePage plan.main_page.url with
  | ok pd =>
    simp only [hms, hdocs, Except.ok.injEq] at hexec
    rw [← hexec]
    rfl
  | error err =>
    simp only [hms, hdocs, Except.ok.injEq] at hexec
    rw [← hexec]
    rfl

/-- Counterexample for C9: `uC9` appears once in `sub_pages` and twice in
`documents`; its existence probe fails and its document extraction is
empty, so it is never marked visited and the executor issues TWO full
document retrievals of it in a single execution. -/
theorem c9_counterexample :
    uC9 ∈ planC9.sub_pages.map PlanTarget.url ∧
    uC9 ∈ (planC9.documents.getD []).map PlanTarget.url ∧
    (aiExecuteScrapingPlan envC9 [] planC9).map (fun out => countFetches uC9 out.2.2) =
      .ok 2 :=
  ⟨by decide, by decide, rfl⟩

/-- Claim C9 as amended: the at-most-once guarantee holds only when the
visited set actually absorbs the url — for every url (other than the main
page) whose existence probe passes, whose page retrieval succeeds, and
whose document extraction yields nonempty text, a single execution issues
at most one full retrieval of it; when an attempt fails to mark the url
visited (failed probe or scrape, or empty extraction) it can be fetched
again. -/
theorem c9_dedup_under_success (env : Env) (v0 : List String) (plan : ScrapingPlan)
    (u : String) (out : ExecResult × List String × List FetchEvent)
    (hu : u ≠ plan.main_page.url)
    (hprobe : env.checkUrlExists u = true)
    (hscr : (env.scrapePage u).isOk = true)
    (hext : extractDocumentText env u (getDocumentType u) ≠ "")
    (hexec : aiExecuteScrapingPlan env v0 plan = .ok out) :
    countFetches u out.2.2 ≤ 1 := by
  cases hdocs : plan.documents with
  | none =>
    unfold aiExecuteScrapingPlan at hexec
    rw [hdocs] at hexec
    exact absurd hexec (by simp)
  | some docs =>
    have hm : (plan.main_page.url == u) = false := beq_eq_false_iff_ne.mpr (Ne.symm hu)
    rw [exec_trace env v0 plan docs out hdocs hexec, countFetches_cons, countFetches_append]
    simp only [isTargetFetch, hm, Bool.false_eq_true, if_false, Nat.add_zero]
    by_cases hu0 : u ∈ v0
    · obtain ⟨h1, h2⟩ :=
        subPagesLoop_of_visited env u (plan.sub_pages.take (natOr plan.max_pages 8)) v0 hu0
      obtain ⟨h3, _⟩ :=
        documentsLoop_of_visited env u (docs.take (natOr plan.max_documents 5)) _ h2
      simp [h1, h3]
    · rcases subPagesLoop_of_not_visited env u hprobe hscr
        (plan.sub_pages.take (natOr plan.max_pages 8)) v0 hu0 with ⟨h1, h2⟩ | ⟨h1, h2⟩
      · rcases documentsLoop_of_not_visited env u hext
          (docs.take (natOr plan.max_documents 5)) _ h2 with ⟨h3, _⟩ | ⟨h3, _⟩ <;>
          simp [h1, h3]
      · obtain ⟨h3, _⟩ :=
          documentsLoop_of_visited env u (docs.take (natOr plan.max_documents 5)) _ h2
        simp [h1, h3]

/-- Witness for C9's amended claim: with every fetch of `uW9` succeeding,
one execution retrieves it exactly once (as a page; the document pass
skips it as visited). -/
theorem c9_witness :
    aiExecuteScrapingPlan envW9 [] planW9 = .ok outW9 ∧ countFetches uW9 outW9.2.2 ≤ 1 :=
  ⟨rfl, c9_dedup_under_success envW9 [] planW9 uW9 outW9 (by decide) rfl rfl (by decide) rfl⟩

/-- Claim C10: a url of document type `pptx` always extracts to the empty
string (the extractor dispatch has no pptx branch), so the document loop
never records a DocumentRecord for it and never marks it visited. -/
theorem c10_pptx_dispatch_gap (env : Env) (url : String)
    (hty : getDocumentType url = "pptx") :
    extractDocumentText env url (getDocumentType url) = "" ∧
    ∀ (v : List String) (docs : List PlanTarget),
      (∀ d ∈ (documentsLoop env docs v).1, d.url ≠ url) ∧
      (url ∈ (documentsLoop env docs v).2.1 ↔ url ∈ v) := by
  have hext : extractDocumentText env url (getDocumentType url) = "" := by
    rw [hty]
    unfold extractDocumentText
    cases hf : env.fetchDoc url with
    | none => rfl
    | some buffer => rfl
  refine ⟨hext, ?_⟩
  intro v docs
  induction docs generalizing v with
  | nil => exact ⟨by simp [documentsLoop], by simp [documentsLoop]⟩
  | cons d rest ih =>
    rw [documentsLoop]
    cases hc : List.contains v d.url with
    | true =>
      simp only [if_true]
      exact ih v
    | false =>
      simp only [Bool.false_eq_true, if_false]
      by_cases hdu : d.url = url
      · have hzero : extractDocumentText env d.url (getDocumentType d.url) = "" := by
          rw [hdu]
          exact hext
        simp only [hzero, bne_self_eq_false, Bool.false_eq_true, if_false]
        exact ih v
      · cases ht : extractDocumentText env d.url (getDocumentType d.url) != "" with
        | false =>
          simp only [Bool.false_eq_true, if_false]
          exact ih v
        | true =>
          simp only [if_true]
          obtain ⟨ih1, ih2⟩ := ih (d.url :: v)
          constructor
          · intro drec hmem
            rcases List.mem_cons.mp hmem with h | h
            · rw [h]
              exact hdu
            · exact ih1 drec h
          · rw [ih2]
            exact ⟨fun h => (List.mem_cons.mp h).resolve_left (fun hh => hdu hh.symm),
              fun h => List.mem_cons_of_mem _ h⟩

/-- Witness for C10: a concrete `.pptx` url extracts to the empty string
even though its download succeeds, and the document loop leaves the
visited set without it. -/
theorem c10_witness :
    extractDocumentText envW10 urlW10 (getDocumentType urlW10) = "" ∧
    (urlW10 ∈ (documentsLoop envW10 docsW10 []).2.1 ↔ urlW10 ∈ ([] : List String)) :=
  ⟨(c10_pptx_dispatch_gap envW10 urlW10 (by decide)).1,
   ((c10_pptx_dispatch_gap envW10 urlW10 (by decide)).2 [] docsW10).2⟩

end RVOAgent
